import Mathlib

/-!
Verification of `conditional_restart.py` (RestartVodafoneStation).

Shallow embedding: the script's filesystem-visible state (the cooldown
timestamp file `LAST_RESTART_TS_FILE` and the overlap lock file `LOCK_FILE`)
is modelled by ages in seconds relative to `now = time.time()`; the socket
probe and the credentials file are modelled by the outcome the Python code
branches on.  I/O errors on the lock files (the `except OSError` branches)
are outside the model: the filesystem model never fails, matching the
hypotheses of the claims about lock behaviour.
-/

namespace RestartVodafone

/-- Constant `COOLDOWN_PERIOD_MIN = 180` from the configuration block. -/
def COOLDOWN_PERIOD_MIN : ℚ := 180

/-- Constant `LOCK_FILE_MAX_AGE_MIN = 60` from the configuration block. -/
def LOCK_FILE_MAX_AGE_MIN : ℚ := 60

/-- Constant `ROUTER_IP = "192.168.0.1"`, imported by `conditional_restart.py`
from `restart_router.py`. -/
def ROUTER_IP : String := "192.168.0.1"

/-- Value of `errno.ECONNREFUSED` on Linux. -/
def ECONNREFUSED : Nat := 111

/-- The durable lock state: age in seconds (relative to `now`) of the
cooldown timestamp file and of the overlap lock file; `none` means the file
is absent. -/
structure LockState where
  markerAge : Option ℚ
  lockAge : Option ℚ
  deriving DecidableEq, Repr

/-- Function `check_and_manage_locks`: returns `True` (stop) when the cooldown marker
is younger than `COOLDOWN_PERIOD_MIN` minutes; otherwise, when the overlap
lock file exists, removes it if it is older than `LOCK_FILE_MAX_AGE_MIN`
minutes and proceeds, and stops if it is recent.  The returned `LockState`
is the filesystem state after the call (the stale-lock removal is the only
mutation). -/
def check_and_manage_locks (s : LockState) : Bool × LockState :=
  match s.markerAge with
  | some a =>
    if a / 60 < COOLDOWN_PERIOD_MIN then
      (true, s)
    else
      match s.lockAge with
      | some g =>
        if g > LOCK_FILE_MAX_AGE_MIN * 60 then
          (false, { s with lockAge := none })
        else
          (true, s)
      | none => (false, s)
  | none =>
    match s.lockAge with
    | some g =>
      if g > LOCK_FILE_MAX_AGE_MIN * 60 then
        (false, { s with lockAge := none })
      else
        (true, s)
    | none => (false, s)

/-- Function `create_overlap_lock`: writes `LOCK_FILE`, so its age becomes 0. -/
def create_overlap_lock (s : LockState) : LockState :=
  { s with lockAge := some 0 }

/-- Function `remove_overlap_lock`: removes `LOCK_FILE` if present. -/
def remove_overlap_lock (s : LockState) : LockState :=
  { s with lockAge := none }

/-- Function `record_restart_attempt`: (over)writes `LAST_RESTART_TS_FILE` with the
current time, so the marker age becomes 0. -/
def record_restart_attempt (s : LockState) : LockState :=
  { s with markerAge := some 0 }

/-- The observable outcome of the single socket connection attempt in
`check_port_connectivity`, matching the branches of the Python code:
`connect_ex` returned the integer `e` (`0` = connected), or one of the
exception classes was raised (`socket.timeout`, `socket.gaierror`, another
`socket.error`, or any other exception). -/
inductive ConnectOutcome where
  | result (e : Nat)
  | timeoutExc
  | gaiError
  | socketError
  | otherExc
  deriving DecidableEq, Repr

/-- Function `check_port_connectivity`: `True` means "problem detected" (the caller
triggers the restart).  `connect_ex` result `0` (open) and `ECONNREFUSED`
(actively refused) are not problems; any other `connect_ex` result and a
`socket.timeout` are problems; `socket.gaierror` (DNS), other socket errors
and unexpected exceptions are not problems. -/
def check_port_connectivity : ConnectOutcome → Bool
  | .result e => if e = 0 then false else if e = ECONNREFUSED then false else true
  | .timeoutExc => true
  | .gaiError => false
  | .socketError => false
  | .otherExc => false

/-- The state of the credentials file `auth.json` as the loading code in
`main` observes it: absent (`os.path.exists` is false), raising on read or
parse (`open`/`json.load`/attribute access fails), or parsed into a JSON
object whose `ROUTER_USER` / `ROUTER_PASS` fields are each absent or a
string (`auth.get` returns `None` or the value). -/
inductive AuthFile where
  | missing
  | malformed
  | parsed (user : Option String) (pass : Option String)
  deriving DecidableEq, Repr

/-- The three failure classes of the credential-loading block in `main`:
`FileNotFoundError` (file absent), a parse/read exception, and the
`ValueError` raised when a field is falsy (`None` or the empty string). -/
inductive CredError where
  | missingFile
  | malformedFile
  | incompleteCredentials
  deriving DecidableEq, Repr

/-- Python truthiness of an optional string: `None` and `""` are falsy. -/
def pyTruthy : Option String → Bool
  | none => false
  | some s => s ≠ ""

/-- The credential-loading block of `main` (lines 210–225): raise
`FileNotFoundError` when the file is absent, propagate the read/parse
exception otherwise, and raise `ValueError` when `ROUTER_USER` or
`ROUTER_PASS` is falsy; on success both loaded strings are returned. -/
def load_credentials : AuthFile → Except CredError (String × String)
  | .missing => .error .missingFile
  | .malformed => .error .malformedFile
  | .parsed u p =>
    if pyTruthy u ∧ pyTruthy p then
      .ok (u.getD "", p.getD "")
    else
      .error .incompleteCredentials

/-- Outcome of `asyncio.run(restart_router_playwright(...))` as `main`
observes it: it returned, or it raised an exception (which covers
collaborator timeouts). -/
inductive RemediationOutcome where
  | success
  | exception
  deriving DecidableEq, Repr

/-- Observable side effects of one run of `main`, in program order. -/
inductive Event where
  | createLock
  | recordAttempt
  | invokeRemediation (addr user pass : String)
  | removeLock
  deriving DecidableEq, Repr

/-- The environment one run of `main` executes in: the lock files' ages,
the value returned by `get_ipv6_address(IFACE)` (`None` on resolution
failure), the outcome of the socket probe, the credentials file, and the
outcome of the remediation call. -/
structure Env where
  locks : LockState
  resolvedIp : Option String
  probe : ConnectOutcome
  auth : AuthFile
  remediation : RemediationOutcome
  deriving DecidableEq, Repr

/-- Result of one run of `main`: the process exit code, the side effects in
order, and the final lock-file state. -/
structure RunResult where
  exitCode : Nat
  events : List Event
  finalLocks : LockState
  deriving DecidableEq, Repr

/-- Function `main`: check locks (exit 0 on skip), resolve the address (exit 1 when
falsy), probe; when a problem is detected: create the overlap lock, record
the restart attempt, load credentials (on failure remove the overlap lock
and exit 1), invoke `restart_router_playwright(ROUTER_IP, username,
password)`, and remove the overlap lock in the `finally` block whether or
not the call raised; exit 0.  When no problem is detected, exit 0 with no
side effects. -/
def main (env : Env) : RunResult :=
  let checked := check_and_manage_locks env.locks
  if checked.1 then
    { exitCode := 0, events := [], finalLocks := checked.2 }
  else
    if pyTruthy env.resolvedIp then
      if check_port_connectivity env.probe then
        let s1 := create_overlap_lock checked.2
        let s2 := record_restart_attempt s1
        match load_credentials env.auth with
        | .error _ =>
          { exitCode := 1
            events := [.createLock, .recordAttempt, .removeLock]
            finalLocks := remove_overlap_lock s2 }
        | .ok (u, p) =>
          match env.remediation with
          | .success =>
            { exitCode := 0
              events := [.createLock, .recordAttempt,
                         .invokeRemediation ROUTER_IP u p, .removeLock]
              finalLocks := remove_overlap_lock s2 }
          | .exception =>
            { exitCode := 0
              events := [.createLock, .recordAttempt,
                         .invokeRemediation ROUTER_IP u p, .removeLock]
              finalLocks := remove_overlap_lock s2 }
      else
        { exitCode := 0, events := [], finalLocks := checked.2 }
    else
      { exitCode := 1, events := [], finalLocks := checked.2 }

/-- The remediation invocations recorded in a run's event list, with their
`(address, username, password)` arguments. -/
def remediationCalls (evs : List Event) : List (String × String × String) :=
  evs.filterMap fun e =>
    match e with
    | .invokeRemediation a u p => some (a, u, p)
    | _ => none

/-- Claim C5: the probe triggers remediation exactly on a timeout or on a
non-refusal nonzero `connect_ex` result; an actively refused connection
(`ECONNREFUSED`) never triggers, and a DNS resolution failure
(`socket.gaierror`) never triggers. -/
theorem probe_trigger_characterization (o : ConnectOutcome) :
    (check_port_connectivity o = true ↔
      o = ConnectOutcome.timeoutExc ∨
        ∃ e, e ≠ 0 ∧ e ≠ ECONNREFUSED ∧ o = ConnectOutcome.result e) ∧
    check_port_connectivity (ConnectOutcome.result ECONNREFUSED) = false ∧
    check_port_connectivity ConnectOutcome.gaiError = false := by
  refine ⟨?_, by simp [check_port_connectivity], by simp [check_port_connectivity]⟩
  cases o with
  | result e =>
    by_cases h0 : e = 0
    · subst h0; simp [check_port_connectivity]
    · by_cases hr : e = ECONNREFUSED
      · subst hr; simp [check_port_connectivity]
      · simp [check_port_connectivity, h0, hr]
  | timeoutExc => simp [check_port_connectivity]
  | gaiError => simp [check_port_connectivity]
  | socketError => simp [check_port_connectivity]
  | otherExc => simp [check_port_connectivity]

/-- Claim C4, counterexample: a no-route-to-host failure of the connection
attempt surfaces as `connect_ex` returning `EHOSTUNREACH` (113 on Linux), a
transport-level error that is neither a refusal nor a timeout, yet
`check_port_connectivity` reports a problem (`true`), so the run does take
action — contradicting the claimed no-action classification. -/
theorem transport_error_triggers_restart :
    check_port_connectivity (ConnectOutcome.result 113) = true ∧
    (113 : Nat) ≠ 0 ∧ (113 : Nat) ≠ ECONNREFUSED := by
  refine ⟨by simp [check_port_connectivity, ECONNREFUSED], by simp, by simp [ECONNREFUSED]⟩

/-- Claim C4, amended: a transport-level error that is raised as a socket
exception (other than a timeout) or as an unexpected exception yields no
action; but a transport-level error returned as a nonzero non-refusal
`connect_ex` code (e.g. no route to host) is treated as filtered/problem
and does trigger remediation. -/
theorem transport_error_classification :
    check_port_connectivity ConnectOutcome.socketError = false ∧
    check_port_connectivity ConnectOutcome.otherExc = false ∧
    ∀ e, e ≠ 0 → e ≠ ECONNREFUSED →
      check_port_connectivity (ConnectOutcome.result e) = true := by
  refine ⟨rfl, rfl, ?_⟩
  intro e h0 hr
  simp [check_port_connectivity, h0, hr]

/-- Witness for the amended C4 at `ENETUNREACH` (101 on Linux). -/
theorem transport_error_classification_witness :
    (101 : Nat) ≠ 0 ∧ (101 : Nat) ≠ ECONNREFUSED ∧
    check_port_connectivity (ConnectOutcome.result 101) = true :=
  ⟨by simp, by simp [ECONNREFUSED],
    transport_error_classification.2.2 101 (by simp) (by simp [ECONNREFUSED])⟩

/-- Claim C9: credential loading succeeds exactly when the file parses to an
object carrying both a non-empty username and a non-empty password; it fails
with `MissingFile` on an absent file, `MalformedFile` on an unparsable file,
and `IncompleteCredentials` when either field is absent or empty; on success
the returned pair is exactly the two loaded fields (all-or-nothing, no
partial result). -/
theorem load_credentials_contract (a : AuthFile) :
    ((∃ c, load_credentials a = Except.ok c) ↔
      ∃ u p, a = AuthFile.parsed (some u) (some p) ∧ u ≠ "" ∧ p ≠ "") ∧
    load_credentials AuthFile.missing = Except.error CredError.missingFile ∧
    load_credentials AuthFile.malformed = Except.error CredError.malformedFile ∧
    (∀ u p, pyTruthy u = false ∨ pyTruthy p = false →
      load_credentials (AuthFile.parsed u p) =
        Except.error CredError.incompleteCredentials) ∧
    (∀ u p, u ≠ "" → p ≠ "" →
      load_credentials (AuthFile.parsed (some u) (some p)) = Except.ok (u, p)) := by
  refine ⟨?_, rfl, rfl, ?_, ?_⟩
  · constructor
    · intro ⟨c, hc⟩
      cases a with
      | missing => simp [load_credentials] at hc
      | malformed => simp [load_credentials] at hc
      | parsed u p =>
        by_cases h : pyTruthy u ∧ pyTruthy p
        · cases u with
          | none => simp [pyTruthy] at h
          | some us =>
            cases p with
            | none => simp [pyTruthy] at h
            | some ps =>
              refine ⟨us, ps, rfl, ?_, ?_⟩
              · simpa [pyTruthy] using h.1
              · simpa [pyTruthy] using h.2
        · simp [load_credentials, h] at hc
    · intro ⟨u, p, ha, hu, hp⟩
      subst ha
      exact ⟨(u, p), by simp [load_credentials, pyTruthy, hu, hp]⟩
  · intro u p h
    have hand : ¬(pyTruthy u ∧ pyTruthy p) := by
      rcases h with h | h <;> simp [h]
    simp [load_credentials, hand]
  · intro u p hu hp
    simp [load_credentials, pyTruthy, hu, hp]

/-- Witness for C9: loading succeeds on a well-formed file and fails on an
empty username. -/
theorem load_credentials_contract_witness :
    ("admin" : String) ≠ "" ∧ ("pw" : String) ≠ "" ∧
    load_credentials (AuthFile.parsed (some "admin") (some "pw")) =
      Except.ok ("admin", "pw") ∧
    load_credentials (AuthFile.parsed (some "") (some "pw")) =
      Except.error CredError.incompleteCredentials :=
  ⟨by simp, by simp,
    (load_credentials_contract AuthFile.missing).2.2.2.2 "admin" "pw"
      (by simp) (by simp),
    (load_credentials_contract AuthFile.missing).2.2.2.1 (some "") (some "pw")
      (Or.inl (by simp [pyTruthy]))⟩

/-- Claim C3, counterexample: with no cooldown marker but a fresh overlap
lock file (age 0), `check_and_manage_locks` still returns skip, so "skip iff
a marker exists with age below the cooldown" is false: skipping is not
independent of the overlap-guard state. -/
theorem cooldown_skip_iff_refuted :
    ¬ ((check_and_manage_locks ⟨none, some 0⟩).1 = true ↔
        ∃ a, (⟨none, some 0⟩ : LockState).markerAge = some a ∧
          a / 60 < COOLDOWN_PERIOD_MIN) := by
  intro h
  have hskip : (check_and_manage_locks ⟨none, some 0⟩).1 = true := by
    norm_num [check_and_manage_locks, LOCK_FILE_MAX_AGE_MIN]
  obtain ⟨a, ha, _⟩ := h.mp hskip
  simp at ha

/-- Claim C3, amended: `check_and_manage_locks` skips iff a cooldown marker
exists with age below the cooldown duration or an overlap lock file exists
that is not stale; the cooldown half is independent of the guard state. -/
theorem check_and_manage_locks_skip_iff (s : LockState) :
    (check_and_manage_locks s).1 = true ↔
      (∃ a, s.markerAge = some a ∧ a / 60 < COOLDOWN_PERIOD_MIN) ∨
      (∃ g, s.lockAge = some g ∧ g ≤ LOCK_FILE_MAX_AGE_MIN * 60) := by
  obtain ⟨ma, la⟩ := s
  cases ma with
  | none =>
    cases la with
    | none => simp [check_and_manage_locks]
    | some g =>
      by_cases hg : g > LOCK_FILE_MAX_AGE_MIN * 60
      · simp [check_and_manage_locks, hg, not_le.mpr hg]
      · simp [check_and_manage_locks, hg, not_lt.mp hg]
  | some a =>
    by_cases ha : a / 60 < COOLDOWN_PERIOD_MIN
    · simp [check_and_manage_locks, ha]
    · cases la with
      | none => simp [check_and_manage_locks, ha]
      | some g =>
        by_cases hg : g > LOCK_FILE_MAX_AGE_MIN * 60
        · simp [check_and_manage_locks, ha, hg, not_le.mpr hg]
        · simp [check_and_manage_locks, ha, hg, not_lt.mp hg]

/-- Claim C6: when no cooldown marker is fresh (absent, or at least the
cooldown duration old), `check_and_manage_locks` skips iff an overlap lock
file exists with age at most `LOCK_FILE_MAX_AGE_MIN` minutes; a strictly
older (stale) lock file is removed and the run proceeds. -/
theorem guard_skip_iff (s : LockState)
    (hm : ∀ a, s.markerAge = some a → COOLDOWN_PERIOD_MIN ≤ a / 60) :
    ((check_and_manage_locks s).1 = true ↔
      ∃ g, s.lockAge = some g ∧ g ≤ LOCK_FILE_MAX_AGE_MIN * 60) ∧
    (∀ g, s.lockAge = some g → LOCK_FILE_MAX_AGE_MIN * 60 < g →
      check_and_manage_locks s = (false, { s with lockAge := none })) := by
  obtain ⟨ma, la⟩ := s
  have hma : ∀ a, ma = some a → ¬ (a / 60 < COOLDOWN_PERIOD_MIN) := by
    intro a haeq
    exact not_lt.mpr (hm a haeq)
  constructor
  · cases ma with
    | none =>
      cases la with
      | none => simp [check_and_manage_locks]
      | some g =>
        by_cases hg : g > LOCK_FILE_MAX_AGE_MIN * 60
        · simp [check_and_manage_locks, hg, not_le.mpr hg]
        · simp [check_and_manage_locks, hg, not_lt.mp hg]
    | some a =>
      have ha := hma a rfl
      cases la with
      | none => simp [check_and_manage_locks, ha]
      | some g =>
        by_cases hg : g > LOCK_FILE_MAX_AGE_MIN * 60
        · simp [check_and_manage_locks, ha, hg, not_le.mpr hg]
        · simp [check_and_manage_locks, ha, hg, not_lt.mp hg]
  · intro g hla hg
    cases ma with
    | none =>
      cases hla
      simp [check_and_manage_locks, hg]
    | some a =>
      have ha := hma a rfl
      cases hla
      simp [check_and_manage_locks, ha, hg]

/-- Witness for C6: a stale lock file (3601 s > 60 min) with no marker is
removed and the run proceeds. -/
theorem guard_skip_iff_witness :
    check_and_manage_locks ⟨none, some 3601⟩ = (false, ⟨none, none⟩) :=
  (guard_skip_iff ⟨none, some 3601⟩ (by simp)).2 3601 rfl
    (by norm_num [LOCK_FILE_MAX_AGE_MIN])

/-- Claim C10: when a cooldown marker exists with age strictly below the
cooldown duration, `check_and_manage_locks` returns skip and leaves the
whole lock state unchanged — in particular a stale overlap lock file is not
removed by such a run. -/
theorem cooldown_skip_frame (s : LockState) (a : ℚ)
    (hm : s.markerAge = some a) (ha : a / 60 < COOLDOWN_PERIOD_MIN) :
    check_and_manage_locks s = (true, s) := by
  obtain ⟨ma, la⟩ := s
  cases hm
  simp [check_and_manage_locks, ha]

/-- Witness for C10: a fresh marker (0 s) together with a very stale lock
file (999999 s) skips and leaves the stale lock file in place. -/
theorem cooldown_skip_frame_witness :
    (0 : ℚ) / 60 < COOLDOWN_PERIOD_MIN ∧
    check_and_manage_locks ⟨some 0, some 999999⟩ = (true, ⟨some 0, some 999999⟩) :=
  ⟨by norm_num [COOLDOWN_PERIOD_MIN],
    cooldown_skip_frame ⟨some 0, some 999999⟩ 0 rfl
      (by norm_num [COOLDOWN_PERIOD_MIN])⟩

/-- Claim C1, counterexample: a run whose address resolution succeeds
(`resolvedIp` is a non-empty address) but whose credentials file is missing
exits with a non-zero status, so a credential-loading failure in the
remediation branch does produce a non-zero exit. -/
theorem credential_failure_nonzero_exit :
    (main ⟨⟨none, none⟩, some "2001:db8::1", ConnectOutcome.timeoutExc,
        AuthFile.missing, RemediationOutcome.success⟩).exitCode ≠ 0 ∧
    pyTruthy (some "2001:db8::1") = true := by
  constructor
  · norm_num [main, check_and_manage_locks, check_port_connectivity,
      load_credentials, pyTruthy]
    decide
  · decide

/-- Claim C1, amended: the process exits non-zero exactly when the run is
not skipped by the lock check and either address resolution fails (falsy
result) or the probe triggers remediation and credential loading fails; all
other completed runs (skips, no-action outcomes, and remediation attempts
whether or not the remediation call raises) exit 0. -/
theorem exit_code_characterization (env : Env) :
    (main env).exitCode ≠ 0 ↔
      ((check_and_manage_locks env.locks).1 = false ∧
        (pyTruthy env.resolvedIp = false ∨
          (pyTruthy env.resolvedIp = true ∧
            check_port_connectivity env.probe = true ∧
            ∃ err, load_credentials env.auth = Except.error err))) := by
  obtain ⟨locks, ip, probe, auth, rem⟩ := env
  rcases h4 : load_credentials auth with err | ⟨u', p'⟩ <;>
    cases h1 : (check_and_manage_locks locks).1 <;>
      cases h2 : pyTruthy ip <;>
        cases h3 : check_port_connectivity probe <;>
          cases rem <;>
            simp [main, h1, h2, h3, h4]

/-- Claim C2, counterexample: in scenario B (no marker, no lock file,
probe timeout, valid credentials) the single remediation invocation receives
the fixed `ROUTER_IP` constant, not the resolved interface address
`2001:db8::1`. -/
theorem scenarioB_wrong_address :
    remediationCalls (main ⟨⟨none, none⟩, some "2001:db8::1",
        ConnectOutcome.timeoutExc, AuthFile.parsed (some "admin") (some "pw"),
        RemediationOutcome.success⟩).events = [(ROUTER_IP, "admin", "pw")] ∧
    ROUTER_IP ≠ "2001:db8::1" := by
  constructor
  · norm_num [main, check_and_manage_locks, check_port_connectivity,
      load_credentials, pyTruthy, remediationCalls]
    decide
  · decide

/-- Claim C2, amended: in any run that passes the lock check with a
resolved (truthy) address, a remediation-triggering probe outcome and a
credentials file carrying both non-empty fields, the overlap lock is
created and then removed, the cooldown marker is written exactly once, and
the remediation is invoked exactly once — with the fixed router address
`ROUTER_IP` and the loaded credentials as its arguments. -/
theorem scenarioB_remediation (s : LockState) (ip u p : String)
    (probe : ConnectOutcome) (rem : RemediationOutcome)
    (hskip : (check_and_manage_locks s).1 = false)
    (hip : ip ≠ "") (hu : u ≠ "") (hp : p ≠ "")
    (hprobe : check_port_connectivity probe = true) :
    main ⟨s, some ip, probe, AuthFile.parsed (some u) (some p), rem⟩ =
      { exitCode := 0
        events := [Event.createLock, Event.recordAttempt,
                   Event.invokeRemediation ROUTER_IP u p, Event.removeLock]
        finalLocks := ⟨some 0, none⟩ } := by
  cases rem <;>
    simp [main, hskip, hprobe, pyTruthy, hip, load_credentials, hu, hp,
      create_overlap_lock, record_restart_attempt, remove_overlap_lock]

/-- Witness for the amended C2 in the scenario-B environment. -/
theorem scenarioB_remediation_witness :
    (check_and_manage_locks ⟨none, none⟩).1 = false ∧
    check_port_connectivity ConnectOutcome.timeoutExc = true ∧
    main ⟨⟨none, none⟩, some "2001:db8::1", ConnectOutcome.timeoutExc,
        AuthFile.parsed (some "admin") (some "pw"), RemediationOutcome.success⟩ =
      { exitCode := 0
        events := [Event.createLock, Event.recordAttempt,
                   Event.invokeRemediation ROUTER_IP "admin" "pw", Event.removeLock]
        finalLocks := ⟨some 0, none⟩ } :=
  ⟨by simp [check_and_manage_locks], rfl,
    scenarioB_remediation ⟨none, none⟩ "2001:db8::1" "admin" "pw"
      ConnectOutcome.timeoutExc RemediationOutcome.success
      (by simp [check_and_manage_locks]) (by simp) (by simp) (by simp) rfl⟩

/-- Claim C8: in any run that passes the lock check with a resolved
address, a remediation-triggering probe outcome and a failing credentials
file, the overlap lock is created and then released, the cooldown marker is
written and not rolled back, the remediation is never invoked, and the run
exits with failure status 1. -/
theorem scenarioE_credential_failure (s : LockState) (ip : String)
    (probe : ConnectOutcome) (auth : AuthFile) (rem : RemediationOutcome)
    (err : CredError)
    (hskip : (check_and_manage_locks s).1 = false)
    (hip : ip ≠ "")
    (hprobe : check_port_connectivity probe = true)
    (hauth : load_credentials auth = Except.error err) :
    main ⟨s, some ip, probe, auth, rem⟩ =
      { exitCode := 1
        events := [Event.createLock, Event.recordAttempt, Event.removeLock]
        finalLocks := ⟨some 0, none⟩ } := by
  simp [main, hskip, hprobe, pyTruthy, hip, hauth,
    create_overlap_lock, record_restart_attempt, remove_overlap_lock]

/-- Witness for C8: scenario E with a missing credentials file. -/
theorem scenarioE_credential_failure_witness :
    (check_and_manage_locks ⟨none, none⟩).1 = false ∧
    ("2001:db8::1" : String) ≠ "" ∧
    load_credentials AuthFile.missing = Except.error CredError.missingFile ∧
    main ⟨⟨none, none⟩, some "2001:db8::1", ConnectOutcome.timeoutExc,
        AuthFile.missing, RemediationOutcome.success⟩ =
      { exitCode := 1
        events := [Event.createLock, Event.recordAttempt, Event.removeLock]
        finalLocks := ⟨some 0, none⟩ } :=
  ⟨by simp [check_and_manage_locks], by simp, rfl,
    scenarioE_credential_failure ⟨none, none⟩ "2001:db8::1"
      ConnectOutcome.timeoutExc AuthFile.missing RemediationOutcome.success
      CredError.missingFile (by simp [check_and_manage_locks]) (by simp) rfl rfl⟩

/-- Claim C7: whenever a run's event trace contains a remediation
invocation, the cooldown marker was recorded strictly before it and the
overlap lock is removed after it — whatever the remediation outcome — and
the final state carries no overlap lock file. -/
theorem remediation_ordering (env : Env) (a u p : String)
    (h : Event.invokeRemediation a u p ∈ (main env).events) :
    ∃ pre post,
      (main env).events = pre ++ Event.invokeRemediation a u p :: post ∧
      Event.recordAttempt ∈ pre ∧ Event.removeLock ∈ post ∧
      (main env).finalLocks.lockAge = none := by
  obtain ⟨locks, ip, probe, auth, rem⟩ := env
  cases h1 : (check_and_manage_locks locks).1 with
  | true => simp [main, h1] at h
  | false =>
    cases h2 : pyTruthy ip with
    | false => simp [main, h1, h2] at h
    | true =>
      cases h3 : check_port_connectivity probe with
      | false => simp [main, h1, h2, h3] at h
      | true =>
        rcases h4 : load_credentials auth with err | ⟨u', p'⟩
        · simp [main, h1, h2, h3, h4] at h
        · cases rem <;>
          · simp only [main, h1, h2, h3, h4] at h ⊢
            simp at h ⊢
            obtain ⟨ha, hu, hp⟩ := h
            subst ha
            subst hu
            subst hp
            exact ⟨[Event.createLock, Event.recordAttempt], [Event.removeLock],
              by simp, by simp, by simp, by simp [remove_overlap_lock]⟩

/-- Witness for C7 in the scenario-B environment. -/
theorem remediation_ordering_witness :
    ∃ pre post,
      (main ⟨⟨none, none⟩, some "2001:db8::1", ConnectOutcome.timeoutExc,
          AuthFile.parsed (some "admin") (some "pw"),
          RemediationOutcome.exception⟩).events =
        pre ++ Event.invokeRemediation ROUTER_IP "admin" "pw" :: post ∧
      Event.recordAttempt ∈ pre ∧ Event.removeLock ∈ post ∧
      (main ⟨⟨none, none⟩, some "2001:db8::1", ConnectOutcome.timeoutExc,
          AuthFile.parsed (some "admin") (some "pw"),
          RemediationOutcome.exception⟩).finalLocks.lockAge = none :=
  remediation_ordering _ ROUTER_IP "admin" "pw"
    (by norm_num [main, check_and_manage_locks, check_port_connectivity,
        load_credentials, pyTruthy]
        decide)

end RestartVodafone
